import Mathlib

/-
  Verification development for the data-file compaction core
  (src/moonlink/src/storage/compaction/compactor.rs) and the batch id
  counter (src/moonlink/src/storage/mooncake_table/batch_id_counter.rs).

  The Rust code is shallowly embedded: the async, I/O-performing pipeline
  becomes pure state passing; every Rust `assert!` / `ma::assert_*!`
  (a panic aborts the compaction) becomes an `Option` failure; machine
  integers are `Nat` with explicit `% 2^32` / `% 2^64` where overflow or
  truncation matters.
-/

namespace Moonlink

/-- `RecordLocation` (storage_utils.rs, external to `src/`): compaction uses
only the `DiskFile(file_id, row_idx)` variant (compactor.rs:240-245). -/
inductive RecordLocation where
  | DiskFile (file_id : Nat) (row_idx : Nat)
deriving DecidableEq, Repr

/-- Reference to a data file (`MooncakeDataFileRef`). The randomized
filesystem path (`get_random_file_name_in_dir`, not under `src/`) plays no
role in any claim and is omitted; every invariant is about the file id. -/
structure MooncakeDataFileRef where
  file_id : Nat
deriving DecidableEq, Repr

/-- `RemappedRecordLocation` (table_compaction.rs): the post-compaction
location plus a reference to the new data file it lives in. -/
structure RemappedRecordLocation where
  record_location : RecordLocation
  new_data_file : MooncakeDataFileRef
deriving DecidableEq, Repr

/-- `CompactedDataEntry` (table_compaction.rs): per-output-file row count and
byte size, recorded at flush time (compactor.rs:148-151). -/
structure CompactedDataEntry where
  num_rows : Nat
  file_size : Nat
deriving DecidableEq, Repr

/-- Modelled from the spec: `BatchDeletionVector` (delete_vector.rs, not under
`src/`) is "conceptually a set of deleted row indices for a given input file"
(spec §3); the set is carried as a list. -/
structure BatchDeletionVector where
  deleted_rows : List Nat
deriving DecidableEq, Repr

def BatchDeletionVector.is_deleted (dv : BatchDeletionVector) (row_idx : Nat) : Bool :=
  dv.deleted_rows.contains row_idx

def BatchDeletionVector.is_empty (dv : BatchDeletionVector) : Bool :=
  dv.deleted_rows.isEmpty

/-- A decoded record batch: the list of its rows, each row abstracted to the
number of bytes it contributes to the arrow writer's in-memory buffer (row
payloads are irrelevant to every claim; row counts and buffered sizes are
not). -/
abbrev RecordBatch := List Nat

/-- Modelled from the spec: `apply_to_batch_with_slice` (spec §4.4,
DeletionFilter) returns "a batch containing exactly the rows i ∈ [s, s+n) for
which deletion_vector.is_deleted(i) is false, preserving original order". -/
def BatchDeletionVector.apply_to_batch_with_slice (dv : BatchDeletionVector) :
    RecordBatch → Nat → RecordBatch
  | [], _ => []
  | row :: rest, row_idx =>
    if dv.is_deleted row_idx then
      BatchDeletionVector.apply_to_batch_with_slice dv rest (row_idx + 1)
    else
      row :: BatchDeletionVector.apply_to_batch_with_slice dv rest (row_idx + 1)

/-- compactor.rs:203-210 `get_filtered_record_batch`: the input batch is
returned unchanged when the deletion vector is empty, otherwise the vector is
applied with the batch's absolute start row index. -/
def get_filtered_record_batch (dv : BatchDeletionVector) (record_batch : RecordBatch)
    (start_row_idx : Nat) : RecordBatch :=
  if dv.is_empty then record_batch
  else dv.apply_to_batch_with_slice record_batch start_row_idx

/-- `SingleFileToCompact` (table_compaction.rs, not under `src/`): per spec §3
it is "(file_id, path, optional deletion-vector handle)". The shallow
embedding replaces the path by the file's decoded content — the stream of
record batches the parquet reader yields for it (compactor.rs:192-194, 215) —
and folds in the two evicted-file lists the object-storage cache returns for
this input (compactor.rs:175-184 on fetch, 272-275 on unpin; an absent cache
handle yields an empty unpin list). -/
structure SingleFileToCompact where
  file_id : Nat
  batches : List RecordBatch
  deletion_vector : Option BatchDeletionVector
  evicted_on_fetch : List String
  evicted_on_unpin : List String
deriving DecidableEq, Repr

/-- `FileIndex` is an opaque artifact of the index subsystem
(persisted_bucket_hash_map.rs, not under `src/`). For an index produced by a
compaction we record the two scalar arguments the compactor hands to
`GlobalIndexBuilder::build_from_merge_for_compaction` (compactor.rs:348-357):
the allocated file id and the row count. -/
structure FileIndex where
  file_id : Nat
  num_rows : Nat
deriving DecidableEq, Repr

/-- `DataCompactionPayload` (table_compaction.rs, not under `src/`): spec §3
calls it "(uuid, ordered list of SingleFileToCompact, list of old indices,
cache handle, filesystem-accessor handle)"; the two external handles are
already folded into `SingleFileToCompact` above. -/
structure DataCompactionPayload where
  uuid : Nat
  disk_files : List SingleFileToCompact
  file_indices : List FileIndex
deriving DecidableEq, Repr

/-- compactor.rs:31-38 `CompactionFileParams`; `dir_path` (randomized output
paths) is irrelevant to every claim and omitted. `table_auto_incr_ids` is a
`Range<u32>`, carried as its two endpoints. -/
structure CompactionFileParams where
  table_auto_incr_ids_start : Nat
  table_auto_incr_ids_end : Nat
  data_file_final_size : Nat
deriving DecidableEq, Repr

/-- `DataCompactionResult` (table_compaction.rs); the two "old" collections
are `HashSet`s in the source, carried here in payload order. -/
structure DataCompactionResult where
  uuid : Nat
  remapped_data_files : List (RecordLocation × RemappedRecordLocation)
  old_data_files : List MooncakeDataFileRef
  old_file_indices : List FileIndex
  new_data_files : List (MooncakeDataFileRef × CompactedDataEntry)
  new_file_indices : List FileIndex
  evicted_files_to_delete : List String
deriving DecidableEq, Repr

def U32_MOD : Nat := 2 ^ 32
def U64_MOD : Nat := 2 ^ 64

/-- Modelled from the spec: `get_unique_file_id_for_flush` and
`NUM_FILES_PER_FLUSH` live in storage_utils.rs, not under `src/`. Spec §3: the
file id is "packed deterministically from (table_auto_increment_id,
in_flush_index) where in_flush_index ∈ [0, NUM_FILES_PER_FLUSH)" into a single
64-bit id, strictly increasing in allocation order; the canonical such packing
is radix-`NUM_FILES_PER_FLUSH`. `NUM_FILES_PER_FLUSH` itself is threaded
through the development as the parameter `nfpf`. -/
def get_unique_file_id_for_flush (nfpf table_auto_incr_id file_idx : Nat) : Nat :=
  (table_auto_incr_id * nfpf + file_idx) % U64_MOD

/-- compactor.rs:100-113 `CompactionBuilder::get_next_file_id`. The `assert!`
that the computed id lies in `table_auto_incr_ids` becomes `none`. Faithful
detail: the source casts the u64 `cur_table_auto_incr_id` with `as u32` before
the `Range<u32>::contains` check, so only its low 32 bits are compared. -/
def get_next_file_id (nfpf : Nat) (params : CompactionFileParams)
    (compacted_file_count : Nat) : Option Nat :=
  let unique_table_auto_incre_id_offset := compacted_file_count / nfpf
  let cur_table_auto_incr_id :=
    (params.table_auto_incr_ids_start + unique_table_auto_incre_id_offset) % U64_MOD
  if params.table_auto_incr_ids_start ≤ cur_table_auto_incr_id % U32_MOD ∧
      cur_table_auto_incr_id % U32_MOD < params.table_auto_incr_ids_end then
    some (get_unique_file_id_for_flush nfpf cur_table_auto_incr_id
      (compacted_file_count - nfpf * unique_table_auto_incre_id_offset))
  else none

/-- The mutable fields of `CompactionBuilder` (compactor.rs:40-59); the payload
and schema are passed separately. The open arrow writer is represented by the
list of row sizes buffered since it was opened (`cur_writer = none` means no
writer), so `memory_size()` is the list's sum and `bytes_written()` at finish
is that same sum. -/
structure BuilderState where
  new_data_files : List (MooncakeDataFileRef × CompactedDataEntry)
  cur_writer : Option (List Nat)
  cur_new_data_file : Option MooncakeDataFileRef
  cur_row_num : Nat
  compacted_file_count : Nat
deriving DecidableEq, Repr

/-- compactor.rs:87-97: the freshly constructed builder. -/
def initState : BuilderState :=
  { new_data_files := [], cur_writer := none, cur_new_data_file := none,
    cur_row_num := 0, compacted_file_count := 0 }

/-- compactor.rs:115-140 `create_new_data_file` + `initialize_arrow_writer_if_not`
(the Lean name avoids a reserved word). If a writer is open it is reused
(asserting a current data file exists); otherwise a file id is allocated, a
new data file created (asserting no current data file), and a fresh writer
opened. -/
def init_arrow_writer_if_not (nfpf : Nat) (params : CompactionFileParams)
    (s : BuilderState) : Option BuilderState :=
  match s.cur_writer with
  | some _ => if s.cur_new_data_file.isSome then some s else none
  | none =>
    if s.cur_new_data_file.isSome then none
    else
      match get_next_file_id nfpf params s.compacted_file_count with
      | none => none
      | some next_file_id =>
        some { s with cur_new_data_file := some { file_id := next_file_id },
                      cur_writer := some [] }

/-- compactor.rs:142-163 `flush_arrow_writer`: finish the writer, assert the
file size and row count are positive, record the `CompactedDataEntry`, push
the finished file, reset the per-file fields and advance
`compacted_file_count`. -/
def flush_arrow_writer (s : BuilderState) : Option BuilderState :=
  match s.cur_writer, s.cur_new_data_file with
  | some buffered, some new_data_file =>
    let file_size := buffered.sum
    if file_size = 0 then none
    else if s.cur_row_num = 0 then none
    else
      some { new_data_files := s.new_data_files ++
               [(new_data_file, { num_rows := s.cur_row_num, file_size := file_size })],
             cur_writer := none,
             cur_new_data_file := none,
             cur_row_num := 0,
             compacted_file_count := s.compacted_file_count + 1 }
  | _, _ => none

/-- compactor.rs:236-257: the per-row loop of `apply_deletion_vector_and_write`
over `old_row_idx ∈ [old_start_row_idx, old_start_row_idx + cur_num_rows)`.
Deleted rows are skipped; each surviving row is appended to the pre-to-post
remap and to the post-location-to-output-ordinal map, and `cur_row_num` is
advanced. Returns (remap additions, ordinal additions, final cur_row_num). -/
def remap_rows (input_file_id : Nat) (dv : BatchDeletionVector)
    (cur_file : MooncakeDataFileRef) (file_ordinal : Nat) :
    Nat → Nat → Nat →
    List (RecordLocation × RemappedRecordLocation) × List (RecordLocation × Nat) × Nat
  | _, 0, cur_row_num => ([], [], cur_row_num)
  | old_row_idx, Nat.succ n, cur_row_num =>
    if dv.is_deleted old_row_idx then
      remap_rows input_file_id dv cur_file file_ordinal (old_row_idx + 1) n cur_row_num
    else
      let old_record_location := RecordLocation.DiskFile input_file_id old_row_idx
      let new_record_location := RecordLocation.DiskFile cur_file.file_id cur_row_num
      let rest := remap_rows input_file_id dv cur_file file_ordinal (old_row_idx + 1) n
        (cur_row_num + 1)
      ((old_record_location,
          { record_location := new_record_location, new_data_file := cur_file }) :: rest.1,
        (new_record_location, file_ordinal) :: rest.2.1,
        rest.2.2)

/-- Accumulator of the while-loop of `apply_deletion_vector_and_write`
(compactor.rs:212-260): builder state, the read cursor `old_start_row_idx`,
and the two per-file maps being built (in insertion order). -/
structure FileLoopAcc where
  st : BuilderState
  old_start_row_idx : Nat
  remap : List (RecordLocation × RemappedRecordLocation)
  ords : List (RecordLocation × Nat)
deriving DecidableEq, Repr

/-- One iteration of the while-loop (compactor.rs:215-260): filter the batch;
if nothing survives, `continue` (compactor.rs:220-222) — note the `continue`
SKIPS the cursor advance `old_start_row_idx += cur_num_rows` at line 259, so
the cursor stays stale for the following batches; otherwise ensure a writer
is open, write the filtered batch, run the per-row remap loop, and advance
the cursor. -/
def process_batch (nfpf : Nat) (params : CompactionFileParams) (input_file_id : Nat)
    (dv : BatchDeletionVector) (acc : FileLoopAcc) (batch : RecordBatch) :
    Option FileLoopAcc :=
  let cur_num_rows := batch.length
  let filtered_record_batch := get_filtered_record_batch dv batch acc.old_start_row_idx
  if filtered_record_batch.length = 0 then
    some acc
  else
    match init_arrow_writer_if_not nfpf params acc.st with
    | none => none
    | some s1 =>
      match s1.cur_writer, s1.cur_new_data_file with
      | some buffered, some cur_file =>
        let s2 : BuilderState := { s1 with cur_writer := some (buffered ++ filtered_record_batch) }
        let out := remap_rows input_file_id dv cur_file s2.compacted_file_count
          acc.old_start_row_idx cur_num_rows s2.cur_row_num
        some { st := { s2 with cur_row_num := out.2.2 },
               old_start_row_idx := acc.old_start_row_idx + cur_num_rows,
               remap := acc.remap ++ out.1,
               ords := acc.ords ++ out.2.1 }
      | _, _ => none

/-- The whole while-loop (compactor.rs:215-260) over the reader's stream of
record batches. -/
def process_batches (nfpf : Nat) (params : CompactionFileParams) (input_file_id : Nat)
    (dv : BatchDeletionVector) : FileLoopAcc → List RecordBatch → Option FileLoopAcc
  | acc, [] => some acc
  | acc, batch :: rest =>
    match process_batch nfpf params input_file_id dv acc batch with
    | none => none
    | some acc' => process_batches nfpf params input_file_id dv acc' rest

/-- compactor.rs:168-284 `apply_deletion_vector_and_write`: load the deletion
vector (absent = empty), stream the batches, then — once the input file is
fully consumed — roll the output file if the writer's in-memory footprint
reached `data_file_final_size` (lines 262-268), and return the per-file maps
together with the evicted files collected on fetch and unpin. -/
def apply_deletion_vector_and_write (nfpf : Nat) (params : CompactionFileParams)
    (s : BuilderState) (data_file_to_compact : SingleFileToCompact) :
    Option (BuilderState × List (RecordLocation × RemappedRecordLocation) ×
      List (RecordLocation × Nat) × List String) :=
  let dv := data_file_to_compact.deletion_vector.getD { deleted_rows := [] }
  match process_batches nfpf params data_file_to_compact.file_id dv
      { st := s, old_start_row_idx := 0, remap := [], ords := [] }
      data_file_to_compact.batches with
  | none => none
  | some acc =>
    let rolled : Option BuilderState :=
      match acc.st.cur_writer with
      | some buffered =>
        if params.data_file_final_size ≤ buffered.sum then flush_arrow_writer acc.st
        else some acc.st
      | none => some acc.st
    match rolled with
    | none => none
    | some s2 =>
      some (s2, acc.remap, acc.ords,
        data_file_to_compact.evicted_on_fetch ++ data_file_to_compact.evicted_on_unpin)

/-- compactor.rs:286-310 `compact_data_files`: fold
`apply_deletion_vector_and_write` over the payload's files in order, extending
the accumulated maps and evicted-file list. -/
def compact_data_files_from (nfpf : Nat) (params : CompactionFileParams) :
    BuilderState → List (RecordLocation × RemappedRecordLocation) →
    List (RecordLocation × Nat) → List String → List SingleFileToCompact →
    Option (BuilderState × List (RecordLocation × RemappedRecordLocation) ×
      List (RecordLocation × Nat) × List String)
  | s, remap, ords, evicted, [] => some (s, remap, ords, evicted)
  | s, remap, ords, evicted, f :: rest =>
    match apply_deletion_vector_and_write nfpf params s f with
    | none => none
    | some (s', dremap, dords, devicted) =>
      compact_data_files_from nfpf params s' (remap ++ dremap) (ords ++ dords)
        (evicted ++ devicted) rest

/-- compactor.rs:312-323 `get_new_compacted_data_files`, reduced to its
`ma::assert_lt!` chain: file ids must be strictly increasing, starting from
the sentinel `prev_file_id = 0` (so the first id must be positive). -/
def check_increasing_file_ids : Nat → List (MooncakeDataFileRef × CompactedDataEntry) → Bool
  | _, [] => true
  | prev_file_id, (cur_new_data_file, _) :: rest =>
    if prev_file_id < cur_new_data_file.file_id then
      check_increasing_file_ids cur_new_data_file.file_id rest
    else false

/-- compactor.rs:325-358 `compact_file_indices`: allocate one more file id,
advance `compacted_file_count`, and invoke the external
`build_from_merge_for_compaction` with `old_to_new_remap.len() as u32` rows —
the `as u32` cast keeps only the low 32 bits. The old indices and the two
lookup closures are consumed by the external index subsystem and do not
influence anything the claims observe, so only the scalars are recorded;
`get_new_compacted_data_files` contributes its assertion chain. -/
def compact_file_indices (nfpf : Nat) (params : CompactionFileParams) (s : BuilderState)
    (old_file_indices : List FileIndex)
    (old_to_new_remap : List (RecordLocation × RemappedRecordLocation))
    (record_loc_to_data_file_index : List (RecordLocation × Nat)) :
    Option (BuilderState × FileIndex) :=
  match old_file_indices, record_loc_to_data_file_index with
  | _, _ =>
    match get_next_file_id nfpf params s.compacted_file_count with
    | none => none
    | some file_id_for_index_file =>
      if check_increasing_file_ids 0 s.new_data_files then
        some ({ s with compacted_file_count := s.compacted_file_count + 1 },
          { file_id := file_id_for_index_file,
            num_rows := old_to_new_remap.length % U32_MOD })
      else none

/-- compactor.rs:360-422 `CompactionBuilder::build`. -/
def build (nfpf : Nat) (params : CompactionFileParams) (payload : DataCompactionPayload) :
    Option DataCompactionResult :=
  let old_data_files := payload.disk_files.map
    (fun f => ({ file_id := f.file_id } : MooncakeDataFileRef))
  let old_file_indices := payload.file_indices
  match compact_data_files_from nfpf params initState [] [] [] payload.disk_files with
  | none => none
  | some (s, old_record_loc_to_new_mapping, record_loc_to_data_file_index,
      evicted_files_to_delete) =>
    if old_record_loc_to_new_mapping.isEmpty then
      if record_loc_to_data_file_index.isEmpty then
        some { uuid := payload.uuid,
               remapped_data_files := old_record_loc_to_new_mapping,
               old_data_files := old_data_files,
               old_file_indices := old_file_indices,
               new_data_files := [],
               new_file_indices := [],
               evicted_files_to_delete := evicted_files_to_delete }
      else none
    else
      match (if s.cur_writer.isSome then flush_arrow_writer s else some s) with
      | none => none
      | some s2 =>
        match compact_file_indices nfpf params s2 payload.file_indices
            old_record_loc_to_new_mapping record_loc_to_data_file_index with
        | none => none
        | some (s3, new_file_index) =>
          some { uuid := payload.uuid,
                 remapped_data_files := old_record_loc_to_new_mapping,
                 old_data_files := old_data_files,
                 old_file_indices := old_file_indices,
                 new_data_files := s3.new_data_files,
                 new_file_indices := [new_file_index],
                 evicted_files_to_delete := evicted_files_to_delete }

/-- batch_id_counter.rs:13-24 `BatchIdCounter`: a u64 counter plus the
streaming flag; the streaming counter starts at 0, the non-streaming one at
2^63. -/
structure BatchIdCounter where
  counter : Nat
  is_streaming : Bool
deriving DecidableEq, Repr

def BatchIdCounter.new (is_streaming : Bool) : BatchIdCounter :=
  { counter := if is_streaming then 0 else 2 ^ 63, is_streaming := is_streaming }

def BatchIdCounter.load (c : BatchIdCounter) : Nat := c.counter

/-- batch_id_counter.rs:32-47 `BatchIdCounter::next`: check the partition
limit (`ma::assert_lt!`, a panic modelled as `none`), then `fetch_add(1)`
returns the pre-increment value; the u64 increment wraps at 2^64 (it cannot
actually wrap given the guard). -/
def BatchIdCounter.next (c : BatchIdCounter) : Option (Nat × BatchIdCounter) :=
  let current := c.counter
  if c.is_streaming then
    if current < 2 ^ 63 then
      some (current, { c with counter := (current + 1) % U64_MOD })
    else none
  else
    if current < U64_MOD - 1 then
      some (current, { c with counter := (current + 1) % U64_MOD })
    else none

/-! Specification-side descriptions of the data the pipeline produces. -/

/-- The deletion vector an input file is processed with (compactor.rs:196-201):
the attached vector, or an empty one when absent. -/
def file_dv (f : SingleFileToCompact) : BatchDeletionVector :=
  f.deletion_vector.getD { deleted_rows := [] }

/-- Total number of rows of an input file: the sum of its batch row counts. -/
def file_total_rows (f : SingleFileToCompact) : Nat :=
  (f.batches.map List.length).sum

/-- The surviving (not deleted) pre-compaction record locations of one input
file, in row-index order. -/
def file_survivors (f : SingleFileToCompact) : List RecordLocation :=
  ((List.range (file_total_rows f)).filter
    (fun i => ! (file_dv f).is_deleted i)).map (RecordLocation.DiskFile f.file_id)

/-- All surviving pre-compaction record locations of a payload, in payload
order and then row-index order. -/
def payload_survivors (files : List SingleFileToCompact) : List RecordLocation :=
  files.flatMap file_survivors

/-- The post-compaction record locations spanned by a list of produced output
files: for each file in production order, rows 0, 1, ..., num_rows - 1. -/
def posts_of_files (files : List (MooncakeDataFileRef × CompactedDataEntry)) :
    List RecordLocation :=
  files.flatMap
    (fun fe => (List.range fe.2.num_rows).map (RecordLocation.DiskFile fe.1.file_id))

/-- The post locations contributed by the currently open output file, if any. -/
def open_file_posts (s : BuilderState) : List RecordLocation :=
  match s.cur_new_data_file with
  | some f => (List.range s.cur_row_num).map (RecordLocation.DiskFile f.file_id)
  | none => []

/-- Every row of the input file is marked deleted by its deletion vector. -/
def all_rows_deleted (f : SingleFileToCompact) : Prop :=
  ∀ i, i < file_total_rows f → (file_dv f).is_deleted i = true

instance all_rows_deleted_decidable (f : SingleFileToCompact) :
    Decidable (all_rows_deleted f) :=
  inferInstanceAs (Decidable (∀ i, i < file_total_rows f → (file_dv f).is_deleted i = true))

/-! The roll policy exactly as the spec words it (spec §4.3: "after each
successful batch write, if `writer.in_memory_footprint ≥ target_final_size`,
roll"). These `specRoll` definitions follow the SPEC's words, not the source,
and exist only to be compared against the source's per-input-file policy. -/

/-- One batch iteration under the spec's roll policy: the code's batch step
followed immediately by the footprint check. -/
def process_batch_specRoll (nfpf : Nat) (params : CompactionFileParams)
    (input_file_id : Nat) (dv : BatchDeletionVector) (acc : FileLoopAcc)
    (batch : RecordBatch) : Option FileLoopAcc :=
  match process_batch nfpf params input_file_id dv acc batch with
  | none => none
  | some acc' =>
    match acc'.st.cur_writer with
    | some buffered =>
      if params.data_file_final_size ≤ buffered.sum then
        match flush_arrow_writer acc'.st with
        | none => none
        | some s2 =>
          some { st := s2, old_start_row_idx := acc'.old_start_row_idx,
                 remap := acc'.remap, ords := acc'.ords }
      else some acc'
    | none => some acc'

def process_batches_specRoll (nfpf : Nat) (params : CompactionFileParams)
    (input_file_id : Nat) (dv : BatchDeletionVector) :
    FileLoopAcc → List RecordBatch → Option FileLoopAcc
  | acc, [] => some acc
  | acc, batch :: rest =>
    match process_batch_specRoll nfpf params input_file_id dv acc batch with
    | none => none
    | some acc' => process_batches_specRoll nfpf params input_file_id dv acc' rest

/-- `apply_deletion_vector_and_write` under the spec's per-batch roll policy:
identical wrapper, but each batch write is followed by the footprint check. -/
def apply_deletion_vector_and_write_specRoll (nfpf : Nat) (params : CompactionFileParams)
    (s : BuilderState) (data_file_to_compact : SingleFileToCompact) :
    Option (BuilderState × List (RecordLocation × RemappedRecordLocation) ×
      List (RecordLocation × Nat) × List String) :=
  let dv := data_file_to_compact.deletion_vector.getD { deleted_rows := [] }
  match process_batches_specRoll nfpf params data_file_to_compact.file_id dv
      { st := s, old_start_row_idx := 0, remap := [], ords := [] }
      data_file_to_compact.batches with
  | none => none
  | some acc =>
    let rolled : Option BuilderState :=
      match acc.st.cur_writer with
      | some buffered =>
        if params.data_file_final_size ≤ buffered.sum then flush_arrow_writer acc.st
        else some acc.st
      | none => some acc.st
    match rolled with
    | none => none
    | some s2 =>
      some (s2, acc.remap, acc.ords,
        data_file_to_compact.evicted_on_fetch ++ data_file_to_compact.evicted_on_unpin)

/-! Claims C8 and C9: the batch id allocator. -/

/-- C8: `BatchIdAllocator.next()` fails with OverflowError exactly when the
counter is outside its partition: streaming fails iff the current value is
≥ 2^63; non-streaming fails iff the current value is 2^64 - 1. A streaming
allocator preloaded to 2^63 - 1 returns 2^63 - 1 once and the following
`next()` fails. -/
theorem claim_C8 :
    (∀ c : BatchIdCounter, c.counter < U64_MOD →
      (c.is_streaming = true → (c.next = none ↔ 2 ^ 63 ≤ c.counter)) ∧
      (c.is_streaming = false → (c.next = none ↔ c.counter = U64_MOD - 1))) ∧
    (({ counter := 2 ^ 63 - 1, is_streaming := true } : BatchIdCounter).next =
        some (2 ^ 63 - 1, { counter := 2 ^ 63, is_streaming := true }) ∧
      ({ counter := 2 ^ 63, is_streaming := true } : BatchIdCounter).next = none) := by
  refine ⟨?_, by decide, by decide⟩
  intro c hc
  constructor <;> intro hs <;>
    simp only [BatchIdCounter.next, hs, if_true, if_false, Bool.false_eq_true] <;>
    split <;> simp <;> omega

/-- Witness for C8 at the streaming counter holding 5. -/
theorem claim_C8_witness :
    (5 : Nat) < U64_MOD ∧
    ((({ counter := 5, is_streaming := true } : BatchIdCounter).is_streaming = true →
        (({ counter := 5, is_streaming := true } : BatchIdCounter).next = none ↔
          2 ^ 63 ≤ ({ counter := 5, is_streaming := true } : BatchIdCounter).counter)) ∧
      (({ counter := 5, is_streaming := true } : BatchIdCounter).is_streaming = false →
        (({ counter := 5, is_streaming := true } : BatchIdCounter).next = none ↔
          ({ counter := 5, is_streaming := true } : BatchIdCounter).counter = U64_MOD - 1))) :=
  ⟨by decide, claim_C8.1 { counter := 5, is_streaming := true } (by decide)⟩

/-- C9: `next()` returns the current value and increments it by one; a fresh
streaming allocator starts at 0, a fresh non-streaming one at 2^63, and the
non-streaming allocator returns 2^63 on its first `next()` and 2^63 + 1 on
its second. -/
theorem claim_C9 :
    ((BatchIdCounter.new true).counter = 0 ∧
      (BatchIdCounter.new false).counter = 2 ^ 63) ∧
    (∀ (c : BatchIdCounter) (v : Nat) (c' : BatchIdCounter),
      c.next = some (v, c') →
      v = c.counter ∧ c'.counter = c.counter + 1 ∧ c'.is_streaming = c.is_streaming) ∧
    ((BatchIdCounter.new false).next =
        some (2 ^ 63, { counter := 2 ^ 63 + 1, is_streaming := false }) ∧
      ({ counter := 2 ^ 63 + 1, is_streaming := false } : BatchIdCounter).next =
        some (2 ^ 63 + 1, { counter := 2 ^ 63 + 2, is_streaming := false })) := by
  refine ⟨⟨by decide, by decide⟩, ?_, by decide, by decide⟩
  intro c v c' h
  simp only [BatchIdCounter.next] at h
  split at h <;> split at h <;> cases h <;> refine ⟨rfl, ?_, rfl⟩ <;>
    simp only [U64_MOD] at * <;> omega

/-- Witness for C9 at the fresh streaming counter. -/
theorem claim_C9_witness :
    (0 : Nat) = (BatchIdCounter.new true).counter ∧
    ({ counter := 1, is_streaming := true } : BatchIdCounter).counter =
      (BatchIdCounter.new true).counter + 1 ∧
    ({ counter := 1, is_streaming := true } : BatchIdCounter).is_streaming =
      (BatchIdCounter.new true).is_streaming :=
  claim_C9.2.1 (BatchIdCounter.new true) 0 { counter := 1, is_streaming := true } (by decide)

/-! Claims C6 and C10: the file-id allocator's range check. -/

/-- C6 counterexample: with configured range [0, 1) and `compacted_file_count
= NUM_FILES_PER_FLUSH * 2^32` (`NUM_FILES_PER_FLUSH` instantiated at 4096),
`start + offset = 2^32` lies outside [0, 1), yet the allocator SUCCEEDS and
returns a packed id, because the source's `as u32` cast truncates 2^32 to 0,
which the range contains. The claim demands failure for every out-of-range
`start + offset`. -/
theorem claim_C6_counterexample :
    get_next_file_id 4096
      { table_auto_incr_ids_start := 0, table_auto_incr_ids_end := 1,
        data_file_final_size := 0 } (4096 * 2 ^ 32) = some (2 ^ 44) ∧
    ¬ (0 + (4096 * 2 ^ 32) / 4096 < 1) := by
  constructor
  · decide
  · decide

/-- C6 amended: the allocator computes `offset = compacted_file_count /
NUM_FILES_PER_FLUSH` and `in_flush_idx = compacted_file_count - offset *
NUM_FILES_PER_FLUSH` and packs `(start + offset, in_flush_idx)` as claimed,
but the range check compares only the LOW 32 BITS of `start + offset` (the
`as u32` cast): it fails with CapacityExhaustedError iff `(start + offset)
mod 2^32` lies outside [start, end). Whenever `start + offset < 2^32` this
coincides with the claimed check. -/
theorem claim_C6_amended (nfpf : Nat) (params : CompactionFileParams)
    (compacted_file_count : Nat)
    (hno : params.table_auto_incr_ids_start + compacted_file_count / nfpf < U64_MOD) :
    (get_next_file_id nfpf params compacted_file_count = none ↔
      ¬ (params.table_auto_incr_ids_start ≤
            (params.table_auto_incr_ids_start + compacted_file_count / nfpf) % U32_MOD ∧
          (params.table_auto_incr_ids_start + compacted_file_count / nfpf) % U32_MOD <
            params.table_auto_incr_ids_end)) ∧
    (∀ id, get_next_file_id nfpf params compacted_file_count = some id →
      id = get_unique_file_id_for_flush nfpf
        (params.table_auto_incr_ids_start + compacted_file_count / nfpf)
        (compacted_file_count - nfpf * (compacted_file_count / nfpf))) := by
  have hmod : (params.table_auto_incr_ids_start + compacted_file_count / nfpf) % U64_MOD =
      params.table_auto_incr_ids_start + compacted_file_count / nfpf :=
    Nat.mod_eq_of_lt hno
  constructor
  · simp only [get_next_file_id, hmod]
    split <;> simp_all
  · intro id hid
    simp only [get_next_file_id, hmod] at hid
    split at hid
    · cases hid
      rfl
    · cases hid

/-- Witness for C6 (amended) at `nfpf = 4096`, range [1, 2),
`compacted_file_count = 0`. -/
theorem claim_C6_witness :
    (1 : Nat) + 0 / 4096 < U64_MOD ∧
    ((get_next_file_id 4096
        { table_auto_incr_ids_start := 1, table_auto_incr_ids_end := 2,
          data_file_final_size := 0 } 0 = none ↔
      ¬ ((1 : Nat) ≤ (1 + 0 / 4096) % U32_MOD ∧ (1 + 0 / 4096) % U32_MOD < 2)) ∧
    (∀ id, get_next_file_id 4096
        { table_auto_incr_ids_start := 1, table_auto_incr_ids_end := 2,
          data_file_final_size := 0 } 0 = some id →
      id = get_unique_file_id_for_flush 4096 (1 + 0 / 4096) (0 - 4096 * (0 / 4096)))) :=
  ⟨by decide, claim_C6_amended 4096
    { table_auto_incr_ids_start := 1, table_auto_incr_ids_end := 2,
      data_file_final_size := 0 } 0 (by decide)⟩

/-- C10: the range check is exact whenever `start + offset < 2^32`; and (for
any `NUM_FILES_PER_FLUSH < 2^32`, the constant itself is not under `src/`)
there are a range and a u64 `compacted_file_count` for which `start + offset ≥
2^32`, its value truncated modulo 2^32 lies inside [start, end), the check
passes, and the returned file id is packed from the untruncated out-of-range
value. -/
theorem claim_C10 (nfpf : Nat) (hpos : 0 < nfpf) :
    (∀ (params : CompactionFileParams) (compacted_file_count : Nat),
      params.table_auto_incr_ids_start + compacted_file_count / nfpf < U32_MOD →
      (get_next_file_id nfpf params compacted_file_count = none ↔
        ¬ (params.table_auto_incr_ids_start ≤
              params.table_auto_incr_ids_start + compacted_file_count / nfpf ∧
            params.table_auto_incr_ids_start + compacted_file_count / nfpf <
              params.table_auto_incr_ids_end))) ∧
    (nfpf < U32_MOD →
      ∃ (params : CompactionFileParams) (compacted_file_count : Nat),
        compacted_file_count < U64_MOD ∧
        U32_MOD ≤ params.table_auto_incr_ids_start + compacted_file_count / nfpf ∧
        (params.table_auto_incr_ids_start ≤
            (params.table_auto_incr_ids_start + compacted_file_count / nfpf) % U32_MOD ∧
          (params.table_auto_incr_ids_start + compacted_file_count / nfpf) % U32_MOD <
            params.table_auto_incr_ids_end) ∧
        get_next_file_id nfpf params compacted_file_count =
          some (get_unique_file_id_for_flush nfpf
            (params.table_auto_incr_ids_start + compacted_file_count / nfpf)
            (compacted_file_count - nfpf * (compacted_file_count / nfpf)))) := by
  constructor
  · intro params compacted_file_count h32
    have h64 : params.table_auto_incr_ids_start + compacted_file_count / nfpf < U64_MOD := by
      have : U32_MOD < U64_MOD := by decide
      omega
    have hmod64 : (params.table_auto_incr_ids_start + compacted_file_count / nfpf) % U64_MOD =
        params.table_auto_incr_ids_start + compacted_file_count / nfpf :=
      Nat.mod_eq_of_lt h64
    have hmod32 : (params.table_auto_incr_ids_start + compacted_file_count / nfpf) % U32_MOD =
        params.table_auto_incr_ids_start + compacted_file_count / nfpf :=
      Nat.mod_eq_of_lt h32
    simp only [get_next_file_id, hmod64, hmod32]
    split <;> simp_all
  · intro h32
    refine ⟨⟨0, 1, 0⟩, nfpf * U32_MOD, ?_, ?_, ?_, ?_⟩
    · have : nfpf * U32_MOD < U32_MOD * U32_MOD := by
        exact Nat.mul_lt_mul_of_lt_of_le h32 (Nat.le_refl _) (by decide)
      have h2 : U32_MOD * U32_MOD = U64_MOD := by decide
      omega
    · rw [Nat.mul_div_cancel_left _ hpos]
      omega
    · rw [Nat.mul_div_cancel_left _ hpos]
      constructor
      · exact Nat.zero_le _
      · simp [U32_MOD, Nat.mod_self]
    · rw [get_next_file_id, Nat.mul_div_cancel_left _ hpos]
      have hlt : (0 : Nat) + U32_MOD < U64_MOD := by decide
      simp only [Nat.mod_eq_of_lt hlt]
      have hcheck : (0 : Nat) ≤ (0 + U32_MOD) % U32_MOD ∧ (0 + U32_MOD) % U32_MOD < 1 := by
        constructor
        · exact Nat.zero_le _
        · simp [U32_MOD, Nat.mod_self]
      rw [if_pos hcheck]

/-- Witness for C10 at `nfpf = 4096`: both the exactness clause (instantiated
at range [1, 2), count 0) and the truncation-overflow clause. -/
theorem claim_C10_witness :
    ((get_next_file_id 4096
        { table_auto_incr_ids_start := 1, table_auto_incr_ids_end := 2,
          data_file_final_size := 0 } 0 = none ↔
      ¬ ((1 : Nat) ≤ 1 + 0 / 4096 ∧ 1 + 0 / 4096 < 2)) ∧
    (∃ (params : CompactionFileParams) (compacted_file_count : Nat),
        compacted_file_count < U64_MOD ∧
        U32_MOD ≤ params.table_auto_incr_ids_start + compacted_file_count / 4096 ∧
        (params.table_auto_incr_ids_start ≤
            (params.table_auto_incr_ids_start + compacted_file_count / 4096) % U32_MOD ∧
          (params.table_auto_incr_ids_start + compacted_file_count / 4096) % U32_MOD <
            params.table_auto_incr_ids_end) ∧
        get_next_file_id 4096 params compacted_file_count =
          some (get_unique_file_id_for_flush 4096
            (params.table_auto_incr_ids_start + compacted_file_count / 4096)
            (compacted_file_count - 4096 * (compacted_file_count / 4096))))) :=
  ⟨(claim_C10 4096 (by decide)).1
      { table_auto_incr_ids_start := 1, table_auto_incr_ids_end := 2,
        data_file_final_size := 0 } 0 (by decide),
    (claim_C10 4096 (by decide)).2 (by decide)⟩

/-! Claim C7: the row count handed to the index merge primitive. -/

/-- A dummy remap entry, used to build a remap of exactly 2^32 entries. -/
def big_remap_entry : RecordLocation × RemappedRecordLocation :=
  (RecordLocation.DiskFile 0 0,
   { record_location := RecordLocation.DiskFile 0 0, new_data_file := { file_id := 0 } })

/-- C7 counterexample: with a pre-to-post remap of exactly 2^32 entries, the
compaction does NOT fail; `compact_file_indices` succeeds and hands the index
subsystem a row count of 0 — the length truncated by the `as u32` cast
(compactor.rs:350) — instead of |pre_to_post| = 2^32. There is no assertion. -/
theorem claim_C7_counterexample :
    (List.replicate U32_MOD big_remap_entry).length = U32_MOD ∧
    compact_file_indices 4096
      { table_auto_incr_ids_start := 1, table_auto_incr_ids_end := 2,
        data_file_final_size := 0 }
      initState [] (List.replicate U32_MOD big_remap_entry) [] =
      some ({ new_data_files := [], cur_writer := none, cur_new_data_file := none,
              cur_row_num := 0, compacted_file_count := 1 },
            { file_id := 4096, num_rows := 0 }) ∧
    (0 : Nat) ≠ U32_MOD := by
  refine ⟨List.length_replicate _ _, ?_, by decide⟩
  simp only [compact_file_indices, List.length_replicate, Nat.mod_self, initState]
  norm_num [get_next_file_id, get_unique_file_id_for_flush, check_increasing_file_ids,
    U32_MOD, U64_MOD]

/-- C7 amended: the row count handed to the index subsystem's
merge-for-compaction primitive is `|pre_to_post| mod 2^32` (a plain `as u32`
cast, no assertion); it equals the exact cardinality exactly whenever
|pre_to_post| < 2^32, and a too-large remap is silently truncated rather than
failing the compaction. -/
theorem claim_C7_amended (nfpf : Nat) (params : CompactionFileParams) (s : BuilderState)
    (old_file_indices : List FileIndex)
    (old_to_new_remap : List (RecordLocation × RemappedRecordLocation))
    (record_loc_to_data_file_index : List (RecordLocation × Nat))
    (s' : BuilderState) (fi : FileIndex)
    (h : compact_file_indices nfpf params s old_file_indices old_to_new_remap
        record_loc_to_data_file_index = some (s', fi)) :
    fi.num_rows = old_to_new_remap.length % U32_MOD ∧
    (old_to_new_remap.length < U32_MOD → fi.num_rows = old_to_new_remap.length) := by
  simp only [compact_file_indices] at h
  split at h
  · cases h
  · split at h
    · cases h
      exact ⟨rfl, fun hlt => Nat.mod_eq_of_lt hlt⟩
    · cases h

/-- Witness for C7 (amended) at a one-entry remap. -/
theorem claim_C7_witness :
    ((1 : Nat) = [big_remap_entry].length % U32_MOD ∧
      ([big_remap_entry].length < U32_MOD → (1 : Nat) = [big_remap_entry].length)) :=
  claim_C7_amended 4096
    { table_auto_incr_ids_start := 1, table_auto_incr_ids_end := 2,
      data_file_final_size := 0 }
    initState [] [big_remap_entry] []
    { new_data_files := [], cur_writer := none, cur_new_data_file := none,
      cur_row_num := 0, compacted_file_count := 1 }
    { file_id := 4096, num_rows := 1 } (by decide)

/-! Claim C3: when the output file is rolled. -/

/-- Range [1, 5) of table ids with target size 1 byte. -/
def p_small_target : CompactionFileParams :=
  { table_auto_incr_ids_start := 1, table_auto_incr_ids_end := 5, data_file_final_size := 1 }

/-- Range [1, 5) of table ids with target size 100 bytes. -/
def p_large_target : CompactionFileParams :=
  { table_auto_incr_ids_start := 1, table_auto_incr_ids_end := 5,
    data_file_final_size := 100 }

/-- An input file delivering two one-row batches (1 byte per row), nothing
deleted. -/
def two_batch_file : SingleFileToCompact :=
  { file_id := 7, batches := [[1], [1]], deletion_vector := none,
    evicted_on_fetch := [], evicted_on_unpin := [] }

/-- An input file delivering one one-row batch (1 byte), nothing deleted. -/
def one_batch_file : SingleFileToCompact :=
  { file_id := 7, batches := [[1]], deletion_vector := none,
    evicted_on_fetch := [], evicted_on_unpin := [] }

/-- C3 counterexample: two one-row batches with target_final_size = 1. After
the first successful batch write the footprint (1) has reached the target, so
under the claim the file must be rolled before the second batch is written —
giving two output files of one row each, as the spec-worded `specRoll`
variant produces. The code checks the footprint only after the whole input
file is consumed (compactor.rs:262-268) and produces ONE output file holding
both batches' rows. -/
theorem claim_C3_counterexample :
    (apply_deletion_vector_and_write 4096 p_small_target initState two_batch_file).map
        (fun t => t.1.new_data_files.map (fun fe => fe.2.num_rows)) = some [2] ∧
    (apply_deletion_vector_and_write_specRoll 4096 p_small_target initState
        two_batch_file).map
        (fun t => t.1.new_data_files.map (fun fe => fe.2.num_rows)) = some [1, 1] ∧
    (some [2] : Option (List Nat)) ≠ some [1, 1] := by
  refine ⟨by decide, by decide, by decide⟩

/-- A flushed writer is closed. -/
theorem flush_cur_writer_none (s s' : BuilderState) (h : flush_arrow_writer s = some s') :
    s'.cur_writer = none := by
  simp only [flush_arrow_writer] at h
  split at h
  · split at h
    · cases h
    · split at h
      · cases h
      · cases h
        rfl
  · cases h

/-- C3 amended: the footprint check runs once per INPUT FILE, after the file
is fully consumed (compactor.rs:262-268), not after each batch write:
whenever `apply_deletion_vector_and_write` returns with the writer still
open, the buffered footprint is strictly below `target_final_size` (otherwise
the file was rolled before the next input file); within a single input file,
batches may be written after the footprint has already reached the target. -/
theorem claim_C3_amended (nfpf : Nat) (params : CompactionFileParams) (s : BuilderState)
    (data_file_to_compact : SingleFileToCompact) (s' : BuilderState)
    (dremap : List (RecordLocation × RemappedRecordLocation))
    (dords : List (RecordLocation × Nat)) (devicted : List String)
    (h : apply_deletion_vector_and_write nfpf params s data_file_to_compact =
      some (s', dremap, dords, devicted))
    (buffered : List Nat) (hw : s'.cur_writer = some buffered) :
    buffered.sum < params.data_file_final_size := by
  simp only [apply_deletion_vector_and_write] at h
  split at h
  · cases h
  · split at h
    · cases h
    · rename_i s2 hroll
      cases h
      split at hroll
      · rename_i buffered0 hcw
        split at hroll
        · have := flush_cur_writer_none _ _ hroll
          rw [this] at hw
          cases hw
        · cases hroll
          rw [hcw] at hw
          cases hw
          omega
      · cases hroll
        rename_i hcw
        rw [hcw] at hw
        cases hw

/-- Witness for C3 (amended): one one-row batch, large target; the writer
stays open and its footprint 1 is below the target 100. -/
theorem claim_C3_witness : ([1] : List Nat).sum < p_large_target.data_file_final_size :=
  claim_C3_amended 4096 p_large_target initState one_batch_file
    { new_data_files := [], cur_writer := some [1],
      cur_new_data_file := some { file_id := 4096 },
      cur_row_num := 1, compacted_file_count := 0 }
    [(RecordLocation.DiskFile 7 0,
      { record_location := RecordLocation.DiskFile 4096 0,
        new_data_file := { file_id := 4096 } })]
    [(RecordLocation.DiskFile 4096 0, 0)] []
    rfl [1] rfl

/-! Machinery for the pipeline-level claims C1, C2, C4, C5: a run invariant
for the builder state and the accumulated maps, preserved by every step of
the data-file loop. -/

theorem is_deleted_of_empty (dv : BatchDeletionVector) (h : dv.is_empty = true) (i : Nat) :
    dv.is_deleted i = false := by
  unfold BatchDeletionVector.is_empty at h
  have hnil : dv.deleted_rows = [] := List.isEmpty_iff.1 h
  unfold BatchDeletionVector.is_deleted
  rw [hnil]
  rfl

theorem length_apply_to_batch_with_slice (dv : BatchDeletionVector) :
    ∀ (batch : RecordBatch) (start : Nat),
      (dv.apply_to_batch_with_slice batch start).length =
        ((List.range' start batch.length).filter (fun i => ! dv.is_deleted i)).length := by
  intro batch
  induction batch with
  | nil => intro start; simp [BatchDeletionVector.apply_to_batch_with_slice]
  | cons row rest ih =>
    intro start
    simp only [BatchDeletionVector.apply_to_batch_with_slice, List.length_cons,
      List.range'_succ, List.filter_cons]
    cases hd : dv.is_deleted start <;> simp [hd, ih (start + 1)]

theorem length_get_filtered_record_batch (dv : BatchDeletionVector) (batch : RecordBatch)
    (start : Nat) :
    (get_filtered_record_batch dv batch start).length =
      ((List.range' start batch.length).filter (fun i => ! dv.is_deleted i)).length := by
  unfold get_filtered_record_batch
  split
  · rename_i h
    have hfalse : ∀ i, dv.is_deleted i = false := is_deleted_of_empty dv h
    simp [hfalse, List.length_range']
  · exact length_apply_to_batch_with_slice dv batch start

theorem remap_rows_map_fst (input_file_id : Nat) (dv : BatchDeletionVector)
    (cur_file : MooncakeDataFileRef) (file_ordinal : Nat) :
    ∀ (n start cur_row_num : Nat),
      (remap_rows input_file_id dv cur_file file_ordinal start n cur_row_num).1.map
          Prod.fst =
        ((List.range' start n).filter (fun i => ! dv.is_deleted i)).map
          (RecordLocation.DiskFile input_file_id) := by
  intro n
  induction n with
  | zero => intro start r0; simp [remap_rows]
  | succ n ih =>
    intro start r0
    simp only [remap_rows, List.range'_succ, List.filter_cons]
    cases hd : dv.is_deleted start with
    | true => simpa [hd] using ih (start + 1) r0
    | false => simp [hd, ih (start + 1) (r0 + 1)]

theorem remap_rows_map_post (input_file_id : Nat) (dv : BatchDeletionVector)
    (cur_file : MooncakeDataFileRef) (file_ordinal : Nat) :
    ∀ (n start cur_row_num : Nat),
      (remap_rows input_file_id dv cur_file file_ordinal start n cur_row_num).1.map
          (fun e => e.2.record_location) =
        (List.range' cur_row_num
          (((List.range' start n).filter (fun i => ! dv.is_deleted i)).length)).map
          (RecordLocation.DiskFile cur_file.file_id) := by
  intro n
  induction n with
  | zero => intro start r0; simp [remap_rows]
  | succ n ih =>
    intro start r0
    simp only [remap_rows, List.range'_succ, List.filter_cons]
    cases hd : dv.is_deleted start with
    | true => simpa [hd] using ih (start + 1) r0
    | false =>
      simp only [hd, Bool.not_false, if_true, List.map_cons, List.length_cons,
        List.range'_succ]
      simp [ih (start + 1) (r0 + 1)]

theorem remap_rows_final_row (input_file_id : Nat) (dv : BatchDeletionVector)
    (cur_file : MooncakeDataFileRef) (file_ordinal : Nat) :
    ∀ (n start cur_row_num : Nat),
      (remap_rows input_file_id dv cur_file file_ordinal start n cur_row_num).2.2 =
        cur_row_num +
          ((List.range' start n).filter (fun i => ! dv.is_deleted i)).length := by
  intro n
  induction n with
  | zero => intro start r0; simp [remap_rows]
  | succ n ih =>
    intro start r0
    simp only [remap_rows, List.range'_succ, List.filter_cons]
    cases hd : dv.is_deleted start with
    | true => simpa [hd] using ih (start + 1) r0
    | false =>
      simp [hd, ih (start + 1) (r0 + 1)]
      omega

theorem remap_rows_ords_length (input_file_id : Nat) (dv : BatchDeletionVector)
    (cur_file : MooncakeDataFileRef) (file_ordinal : Nat) :
    ∀ (n start cur_row_num : Nat),
      (remap_rows input_file_id dv cur_file file_ordinal start n cur_row_num).2.1.length =
        (remap_rows input_file_id dv cur_file file_ordinal start n cur_row_num).1.length := by
  intro n
  induction n with
  | zero => intro start r0; simp [remap_rows]
  | succ n ih =>
    intro start r0
    simp only [remap_rows]
    cases hd : dv.is_deleted start with
    | true => simpa [hd] using ih (start + 1) r0
    | false => simp [hd, ih (start + 1) (r0 + 1)]

/-- Run invariant of the data-file compaction loop, relating the builder
state to the accumulated pre-to-post remap and
post-location-to-output-ordinal map. -/
structure Inv (nfpf : Nat) (params : CompactionFileParams) (s : BuilderState)
    (remap : List (RecordLocation × RemappedRecordLocation))
    (ords : List (RecordLocation × Nat)) : Prop where
  aligned : s.cur_writer.isSome = s.cur_new_data_file.isSome
  count_eq : s.compacted_file_count = s.new_data_files.length
  file_ids : ∀ (k : Nat) (h : k < s.new_data_files.length),
    get_next_file_id nfpf params k = some (s.new_data_files[k].1.file_id)
  cur_file_id : ∀ f, s.cur_new_data_file = some f →
    get_next_file_id nfpf params s.new_data_files.length = some f.file_id
  closed_rows : s.cur_new_data_file = none → s.cur_row_num = 0
  row_sum : remap.length = (s.new_data_files.map (fun fe => fe.2.num_rows)).sum + s.cur_row_num
  ords_len : ords.length = remap.length
  posts : remap.map (fun e => e.2.record_location) =
    posts_of_files s.new_data_files ++ open_file_posts s

theorem Inv_init (nfpf : Nat) (params : CompactionFileParams) :
    Inv nfpf params initState [] [] := by
  refine ⟨rfl, rfl, ?_, ?_, fun _ => rfl, rfl, rfl, rfl⟩
  · intro k h
    simp [initState] at h
  · intro f hf
    simp [initState] at hf

theorem init_writer_inv (nfpf : Nat) (params : CompactionFileParams) (s s1 : BuilderState)
    (remap : List (RecordLocation × RemappedRecordLocation))
    (ords : List (RecordLocation × Nat))
    (hInv : Inv nfpf params s remap ords)
    (h : init_arrow_writer_if_not nfpf params s = some s1) :
    Inv nfpf params s1 remap ords ∧
    s1.new_data_files = s.new_data_files ∧
    s1.compacted_file_count = s.compacted_file_count ∧
    s1.cur_row_num = s.cur_row_num := by
  simp only [init_arrow_writer_if_not] at h
  split at h
  · split at h
    · cases h
      exact ⟨hInv, rfl, rfl, rfl⟩
    · cases h
  · rename_i hcw
    split at h
    · cases h
    · rename_i hcf
      split at h
      · cases h
      · rename_i next_file_id hid
        cases h
        have hcfn : s.cur_new_data_file = none := by
          cases hcfv : s.cur_new_data_file
          · rfl
          · rw [hcfv] at hcf
            simp at hcf
        have hrow : s.cur_row_num = 0 := hInv.closed_rows hcfn
        refine ⟨?_, rfl, rfl, rfl⟩
        refine ⟨rfl, hInv.count_eq, hInv.file_ids, ?_, ?_, hInv.row_sum, hInv.ords_len, ?_⟩
        · intro f hf
          cases hf
          rw [← hInv.count_eq]
          exact hid
        · intro hnone
          cases hnone
        · rw [hInv.posts]
          simp [open_file_posts, hcfn, hrow]

theorem flush_inv (nfpf : Nat) (params : CompactionFileParams) (s s' : BuilderState)
    (remap : List (RecordLocation × RemappedRecordLocation))
    (ords : List (RecordLocation × Nat))
    (hInv : Inv nfpf params s remap ords)
    (h : flush_arrow_writer s = some s') :
    Inv nfpf params s' remap ords := by
  simp only [flush_arrow_writer] at h
  split at h
  · rename_i buffered new_data_file hcw hcf
    split at h
    · cases h
    · split at h
      · cases h
      · cases h
        refine ⟨rfl, ?_, ?_, ?_, fun _ => rfl, ?_, hInv.ords_len, ?_⟩
        · show s.compacted_file_count + 1 =
            (s.new_data_files ++ [(new_data_file,
              ({ num_rows := s.cur_row_num, file_size := buffered.sum } :
                CompactedDataEntry))]).length
          rw [hInv.count_eq, List.length_append]
          rfl
        · intro k hk
          show get_next_file_id nfpf params k = _
          rw [List.length_append] at hk
          by_cases hlt : k < s.new_data_files.length
          · rw [List.getElem_append_left hlt]
            exact hInv.file_ids k hlt
          · have hke : k = s.new_data_files.length := by
              simp at hk
              omega
            subst hke
            rw [List.getElem_append_right (Nat.le_refl _)]
            simp only [Nat.sub_self, List.getElem_cons_zero]
            exact hInv.cur_file_id new_data_file hcf
        · intro f hf
          cases hf
        · show remap.length = _ + 0
          rw [hInv.row_sum, List.map_append, List.sum_append]
          simp
        · show remap.map _ = posts_of_files (s.new_data_files ++ [(new_data_file,
              ({ num_rows := s.cur_row_num, file_size := buffered.sum } :
                CompactedDataEntry))]) ++
            open_file_posts _
          rw [hInv.posts]
          simp only [posts_of_files, open_file_posts, hcf, List.flatMap_append,
            List.flatMap_cons, List.flatMap_nil, List.append_nil, List.append_assoc]
  · cases h

theorem range_append_range' (f : Nat → RecordLocation) (r fl : Nat) :
    (List.range r).map f ++ (List.range' r fl).map f = (List.range (r + fl)).map f := by
  rw [List.range_eq_range', List.range_eq_range', ← List.map_append]
  have h := List.range'_append 0 r fl 1
  simp only [Nat.zero_add, Nat.one_mul] at h
  rw [h, Nat.add_comm fl r]

theorem step_inv (nfpf : Nat) (params : CompactionFileParams) (input_file_id : Nat)
    (dv : BatchDeletionVector) (s1 : BuilderState) (buffered filtered : List Nat)
    (cur_file : MooncakeDataFileRef) (start n : Nat)
    (R : List (RecordLocation × RemappedRecordLocation))
    (O : List (RecordLocation × Nat))
    (hI1 : Inv nfpf params s1 R O)
    (hcf1 : s1.cur_new_data_file = some cur_file) :
    Inv nfpf params
      { s1 with cur_writer := some (buffered ++ filtered),
                cur_row_num := (remap_rows input_file_id dv cur_file
                  s1.compacted_file_count start n s1.cur_row_num).2.2 }
      (R ++ (remap_rows input_file_id dv cur_file s1.compacted_file_count start n
        s1.cur_row_num).1)
      (O ++ (remap_rows input_file_id dv cur_file s1.compacted_file_count start n
        s1.cur_row_num).2.1) := by
  have hfst := remap_rows_map_fst input_file_id dv cur_file s1.compacted_file_count n start
    s1.cur_row_num
  have hpost := remap_rows_map_post input_file_id dv cur_file s1.compacted_file_count n start
    s1.cur_row_num
  have hfinal := remap_rows_final_row input_file_id dv cur_file s1.compacted_file_count n
    start s1.cur_row_num
  have hordlen := remap_rows_ords_length input_file_id dv cur_file s1.compacted_file_count n
    start s1.cur_row_num
  have hlen1 : (remap_rows input_file_id dv cur_file s1.compacted_file_count start n
      s1.cur_row_num).1.length =
      ((List.range' start n).filter (fun i => ! dv.is_deleted i)).length := by
    rw [← List.length_map _ Prod.fst, hfst, List.length_map]
  refine ⟨?_, hI1.count_eq, hI1.file_ids, ?_, ?_, ?_, ?_, ?_⟩
  · show (some (buffered ++ filtered)).isSome = s1.cur_new_data_file.isSome
    rw [hcf1]
    rfl
  · intro f hf
    exact hI1.cur_file_id f hf
  · intro hnone
    have hn : s1.cur_new_data_file = none := hnone
    rw [hcf1] at hn
    cases hn
  · show (R ++ (remap_rows input_file_id dv cur_file s1.compacted_file_count start n
        s1.cur_row_num).1).length =
      (s1.new_data_files.map (fun fe => fe.2.num_rows)).sum +
      (remap_rows input_file_id dv cur_file s1.compacted_file_count start n
        s1.cur_row_num).2.2
    rw [List.length_append, hI1.row_sum, hlen1, hfinal]
    omega
  · show (O ++ _).length = (R ++ _).length
    rw [List.length_append, List.length_append, hordlen, hI1.ords_len]
  · show (R ++ _).map _ = posts_of_files s1.new_data_files ++ open_file_posts _
    rw [List.map_append, hI1.posts, hpost, List.append_assoc]
    have hop : open_file_posts s1 =
        (List.range s1.cur_row_num).map (RecordLocation.DiskFile cur_file.file_id) := by
      simp [open_file_posts, hcf1]
    have hop' : open_file_posts
        { s1 with cur_writer := some (buffered ++ filtered),
                  cur_row_num := (remap_rows input_file_id dv cur_file
                    s1.compacted_file_count start n s1.cur_row_num).2.2 } =
        (List.range (s1.cur_row_num +
          ((List.range' start n).filter (fun i => ! dv.is_deleted i)).length)).map
          (RecordLocation.DiskFile cur_file.file_id) := by
      simp [open_file_posts, hcf1, hfinal]
    rw [hop, hop', range_append_range']

theorem process_batch_inv (nfpf : Nat) (params : CompactionFileParams) (input_file_id : Nat)
    (dv : BatchDeletionVector) (acc acc' : FileLoopAcc) (batch : RecordBatch)
    (R0 : List (RecordLocation × RemappedRecordLocation))
    (O0 : List (RecordLocation × Nat))
    (hInv : Inv nfpf params acc.st (R0 ++ acc.remap) (O0 ++ acc.ords))
    (h : process_batch nfpf params input_file_id dv acc batch = some acc') :
    Inv nfpf params acc'.st (R0 ++ acc'.remap) (O0 ++ acc'.ords) := by
  simp only [process_batch] at h
  split at h
  · cases h
    exact hInv
  · split at h
    · cases h
    · rename_i s1 hinit
      split at h
      · rename_i buffered cur_file hcw1 hcf1
        cases h
        obtain ⟨hI1, hfiles, hcount, hrow⟩ := init_writer_inv nfpf params acc.st s1
          (R0 ++ acc.remap) (O0 ++ acc.ords) hInv hinit
        have hstep := step_inv nfpf params input_file_id dv s1 buffered
          (get_filtered_record_batch dv batch acc.old_start_row_idx) cur_file
          acc.old_start_row_idx batch.length (R0 ++ acc.remap) (O0 ++ acc.ords) hI1 hcf1
        rw [List.append_assoc, List.append_assoc] at hstep
        exact hstep
      · cases h

theorem process_batches_inv (nfpf : Nat) (params : CompactionFileParams)
    (input_file_id : Nat) (dv : BatchDeletionVector) :
    ∀ (bs : List RecordBatch) (acc acc' : FileLoopAcc)
      (R0 : List (RecordLocation × RemappedRecordLocation))
      (O0 : List (RecordLocation × Nat)),
      Inv nfpf params acc.st (R0 ++ acc.remap) (O0 ++ acc.ords) →
      process_batches nfpf params input_file_id dv acc bs = some acc' →
      Inv nfpf params acc'.st (R0 ++ acc'.remap) (O0 ++ acc'.ords) := by
  intro bs
  induction bs with
  | nil =>
    intro acc acc' R0 O0 hInv h
    cases h
    exact hInv
  | cons b rest ih =>
    intro acc acc' R0 O0 hInv h
    simp only [process_batches] at h
    split at h
    · cases h
    · rename_i acc1 hb
      exact ih acc1 acc' R0 O0
        (process_batch_inv nfpf params input_file_id dv acc acc1 b R0 O0 hInv hb) h

theorem apply_file_inv (nfpf : Nat) (params : CompactionFileParams) (s : BuilderState)
    (f : SingleFileToCompact) (s' : BuilderState)
    (dr : List (RecordLocation × RemappedRecordLocation))
    (dords : List (RecordLocation × Nat)) (dev : List String)
    (R : List (RecordLocation × RemappedRecordLocation))
    (O : List (RecordLocation × Nat))
    (hInv : Inv nfpf params s R O)
    (h : apply_deletion_vector_and_write nfpf params s f = some (s', dr, dords, dev)) :
    Inv nfpf params s' (R ++ dr) (O ++ dords) ∧
    dev = f.evicted_on_fetch ++ f.evicted_on_unpin := by
  simp only [apply_deletion_vector_and_write] at h
  split at h
  · cases h
  · rename_i acc hacc
    have hInv0 : Inv nfpf params s (R ++ ([] :
        List (RecordLocation × RemappedRecordLocation))) (O ++ ([] :
        List (RecordLocation × Nat))) := by
      simpa using hInv
    have hIacc := process_batches_inv nfpf params f.file_id
      (file_dv f) f.batches { st := s, old_start_row_idx := 0, remap := [], ords := [] }
      acc R O hInv0 hacc
    split at h
    · cases h
    · rename_i s2 hroll
      simp only [Option.some.injEq, Prod.mk.injEq] at h
      obtain ⟨h1, h2, h3, h4⟩ := h
      subst h1
      subst h2
      subst h3
      subst h4
      refine ⟨?_, rfl⟩
      split at hroll
      · rename_i buffered hcw
        split at hroll
        · exact flush_inv nfpf params acc.st s2 _ _ hIacc hroll
        · cases hroll
          exact hIacc
      · cases hroll
        exact hIacc

theorem compact_files_inv (nfpf : Nat) (params : CompactionFileParams) :
    ∀ (files : List SingleFileToCompact) (s : BuilderState)
      (R : List (RecordLocation × RemappedRecordLocation))
      (O : List (RecordLocation × Nat)) (E : List String)
      (s' : BuilderState) (R' : List (RecordLocation × RemappedRecordLocation))
      (O' : List (RecordLocation × Nat)) (E' : List String),
      Inv nfpf params s R O →
      compact_data_files_from nfpf params s R O E files = some (s', R', O', E') →
      Inv nfpf params s' R' O' ∧
      E' = E ++ files.flatMap (fun f => f.evicted_on_fetch ++ f.evicted_on_unpin) := by
  intro files
  induction files with
  | nil =>
    intro s R O E s' R' O' E' hInv h
    cases h
    exact ⟨hInv, by simp⟩
  | cons f rest ih =>
    intro s R O E s' R' O' E' hInv h
    simp only [compact_data_files_from] at h
    split at h
    · cases h
    · rename_i s1 dr1 dords1 dev1 happly
      obtain ⟨hI1, hdev1⟩ := apply_file_inv nfpf params s f s1 dr1 dords1 dev1
        R O hInv happly
      obtain ⟨hI', hE'⟩ := ih s1 (R ++ dr1) (O ++ dords1) (E ++ dev1)
        s' R' O' E' hI1 h
      refine ⟨hI', ?_⟩
      rw [hE', hdev1, List.append_assoc]
      simp [List.flatMap_cons]

/-- Dissection of a successful `build` run: the data-file loop succeeded, and
either all rows were deleted (empty remap, empty outputs) or the trailing
flush and the index compaction both succeeded. -/
theorem build_some_cases (nfpf : Nat) (params : CompactionFileParams)
    (payload : DataCompactionPayload) (r : DataCompactionResult)
    (hb : build nfpf params payload = some r) :
    ∃ s R O E,
      compact_data_files_from nfpf params initState [] [] [] payload.disk_files =
        some (s, R, O, E) ∧
      r.remapped_data_files = R ∧
      r.evicted_files_to_delete = E ∧
      r.uuid = payload.uuid ∧
      ((R = [] ∧ O = [] ∧ r.new_data_files = [] ∧ r.new_file_indices = []) ∨
       ∃ s2 fi,
         (if s.cur_writer.isSome then flush_arrow_writer s else some s) = some s2 ∧
         s2.cur_writer = none ∧
         r.new_data_files = s2.new_data_files ∧
         r.new_file_indices = [fi] ∧
         get_next_file_id nfpf params s2.compacted_file_count = some fi.file_id) := by
  simp only [build] at hb
  split at hb
  · cases hb
  · rename_i s R O E hc
    refine ⟨s, R, O, E, hc, ?_⟩
    split at hb
    · rename_i hRe
      split at hb
      · rename_i hOe
        cases hb
        exact ⟨rfl, rfl, rfl, Or.inl ⟨List.isEmpty_iff.1 hRe, List.isEmpty_iff.1 hOe,
          rfl, rfl⟩⟩
      · cases hb
    · rename_i hRe
      split at hb
      · cases hb
      · rename_i s2 hflush
        have hs2w : s2.cur_writer = none := by
          by_cases hcw : s.cur_writer.isSome
          · rw [if_pos hcw] at hflush
            exact flush_cur_writer_none s s2 hflush
          · rw [if_neg hcw] at hflush
            cases hflush
            cases hv : s.cur_writer
            · rfl
            · rw [hv] at hcw
              simp at hcw
        split at hb
        · cases hb
        · rename_i s3 fi hidx
          cases hb
          simp only [compact_file_indices] at hidx
          split at hidx
          · cases hidx
          · rename_i fid hfid
            split at hidx
            · simp only [Option.some.injEq, Prod.mk.injEq] at hidx
              obtain ⟨h1, h2⟩ := hidx
              subst h1
              subst h2
              exact ⟨rfl, rfl, rfl, Or.inr ⟨s2, _, hflush, hs2w, rfl, rfl, hfid⟩⟩
            · cases hidx

/-- Failing input for C1: one input file decoding as two one-row batches,
with absolute row 0 deleted and absolute row 1 surviving. -/
def cursor_bug_file : SingleFileToCompact :=
  { file_id := 7, batches := [[1], [1]],
    deletion_vector := some { deleted_rows := [0] },
    evicted_on_fetch := [], evicted_on_unpin := [] }

def cursor_bug_payload : DataCompactionPayload :=
  { uuid := 0, disk_files := [cursor_bug_file], file_indices := [] }

/-- What the code returns on `cursor_bug_payload`: an empty remap and no
output files, although absolute row 1 survives. -/
def cursor_bug_result : DataCompactionResult :=
  { uuid := 0, remapped_data_files := [], old_data_files := [{ file_id := 7 }],
    old_file_indices := [], new_data_files := [], new_file_indices := [],
    evicted_files_to_delete := [] }

/-- C1 is violated by the code: a code bug. Spec §4.6 step 4b requires an
empty filtered batch to "advance the cursor by n and continue", but the
`continue` at compactor.rs:221 skips the cursor advance at line 259 (whose
own comment, line 216, speaks of the whole data file being deleted, not one
batch), so every later batch of the same input file is filtered and remapped
at a stale absolute row index. On a file of two one-row batches with row 0
deleted, the surviving absolute row 1 is filtered at the stale start index 0,
coincides with deleted row 0, and is dropped: `build` succeeds with an EMPTY
remap and no output file, while the claim requires surviving row 1 to receive
the dense output row index 0 in a one-row output file. -/
theorem claim_C1 :
    payload_survivors cursor_bug_payload.disk_files = [RecordLocation.DiskFile 7 1] ∧
    build 4096 p_large_target cursor_bug_payload = some cursor_bug_result ∧
    cursor_bug_result.remapped_data_files = [] ∧
    cursor_bug_result.new_data_files = [] := by
  refine ⟨by decide, rfl, rfl, rfl⟩

/-- Scenario S3 input file: 10 one-byte rows, rows {2, 5, 7} deleted. -/
def s3_file : SingleFileToCompact :=
  { file_id := 7, batches := [[1, 1, 1, 1, 1, 1, 1, 1, 1, 1]],
    deletion_vector := some { deleted_rows := [2, 5, 7] },
    evicted_on_fetch := [], evicted_on_unpin := [] }

/-- Scenario S3 parameters: table-id range [1, 2), target 100 bytes. -/
def s3_params : CompactionFileParams :=
  { table_auto_incr_ids_start := 1, table_auto_incr_ids_end := 2,
    data_file_final_size := 100 }

def s3_payload : DataCompactionPayload :=
  { uuid := 0, disk_files := [s3_file], file_indices := [] }

/-- The result `build` produces on scenario S3 (one output file of 7 rows,
ids 4096 for data and 4097 for the index). -/
def s3_result : DataCompactionResult :=
  { uuid := 0,
    remapped_data_files := [(RecordLocation.DiskFile 7 0,
        { record_location := RecordLocation.DiskFile 4096 0,
          new_data_file := { file_id := 4096 } }),
      (RecordLocation.DiskFile 7 1,
        { record_location := RecordLocation.DiskFile 4096 1,
          new_data_file := { file_id := 4096 } }),
      (RecordLocation.DiskFile 7 3,
        { record_location := RecordLocation.DiskFile 4096 2,
          new_data_file := { file_id := 4096 } }),
      (RecordLocation.DiskFile 7 4,
        { record_location := RecordLocation.DiskFile 4096 3,
          new_data_file := { file_id := 4096 } }),
      (RecordLocation.DiskFile 7 6,
        { record_location := RecordLocation.DiskFile 4096 4,
          new_data_file := { file_id := 4096 } }),
      (RecordLocation.DiskFile 7 8,
        { record_location := RecordLocation.DiskFile 4096 5,
          new_data_file := { file_id := 4096 } }),
      (RecordLocation.DiskFile 7 9,
        { record_location := RecordLocation.DiskFile 4096 6,
          new_data_file := { file_id := 4096 } })],
    old_data_files := [{ file_id := 7 }],
    old_file_indices := [],
    new_data_files := [({ file_id := 4096 }, { num_rows := 7, file_size := 7 })],
    new_file_indices := [{ file_id := 4097, num_rows := 7 }],
    evicted_files_to_delete := [] }

/-- C2: for every payload on which `build` succeeds, the number of remap
entries equals the sum of `num_rows` over all produced output files (each
recorded in the file's `CompactedDataEntry` at flush time). The distinct-ids
hypothesis makes the model's association list agree with the source's
`HashMap`. -/
theorem claim_C2 (nfpf : Nat) (params : CompactionFileParams)
    (payload : DataCompactionPayload) (r : DataCompactionResult)
    ( _hids : (payload.disk_files.map SingleFileToCompact.file_id).Nodup)
    (hb : build nfpf params payload = some r) :
    r.remapped_data_files.length = (r.new_data_files.map (fun fe => fe.2.num_rows)).sum := by
  obtain ⟨s, R, O, E, hc, hrR, hrE, hruuid, hcases⟩ :=
    build_some_cases nfpf params payload r hb
  obtain ⟨hInv, hE⟩ := compact_files_inv nfpf params payload.disk_files
    initState [] [] [] s R O E (Inv_init nfpf params) hc
  rcases hcases with ⟨hRnil, hOnil, hnf, hni⟩ | ⟨s2, fi, hflush, hs2w, hnf, hni, hfid⟩
  · subst hRnil
    rw [hrR, hnf]
    simp
  · have hI2 : Inv nfpf params s2 R O := by
      by_cases hcw : s.cur_writer.isSome
      · rw [if_pos hcw] at hflush
        exact flush_inv nfpf params s s2 R O hInv hflush
      · rw [if_neg hcw] at hflush
        cases hflush
        exact hInv
    have hcfn : s2.cur_new_data_file = none := by
      have halgn := hI2.aligned
      rw [hs2w] at halgn
      cases hv : s2.cur_new_data_file
      · rfl
      · rw [hv] at halgn
        simp at halgn
    have hrow := hI2.row_sum
    rw [hI2.closed_rows hcfn] at hrow
    rw [hrR, hnf]
    omega

/-- Witness for C2: scenario S3 (7 remap entries, one output file of 7 rows). -/
theorem claim_C2_witness :
    s3_result.remapped_data_files.length =
      (s3_result.new_data_files.map (fun fe => fe.2.num_rows)).sum :=
  claim_C2 4096 s3_params s3_payload s3_result (by decide) rfl

/-- In the no-overflow regime the allocated file id is exactly
`start * NUM_FILES_PER_FLUSH + compacted_file_count`. -/
theorem get_next_file_id_value (nfpf : Nat) (params : CompactionFileParams)
    (count id : Nat) (hpos : 0 < nfpf)
    (hcap : params.table_auto_incr_ids_start * nfpf + count < U64_MOD)
    (h : get_next_file_id nfpf params count = some id) :
    id = params.table_auto_incr_ids_start * nfpf + count := by
  have hdle : count / nfpf ≤ count := Nat.div_le_self count nfpf
  have hsle : params.table_auto_incr_ids_start ≤ params.table_auto_incr_ids_start * nfpf :=
    Nat.le_mul_of_pos_right _ hpos
  have h64 : params.table_auto_incr_ids_start + count / nfpf < U64_MOD := by omega
  have hmod : (params.table_auto_incr_ids_start + count / nfpf) % U64_MOD =
      params.table_auto_incr_ids_start + count / nfpf := Nat.mod_eq_of_lt h64
  simp only [get_next_file_id, hmod] at h
  split at h
  · cases h
    unfold get_unique_file_id_for_flush
    have hdm : nfpf * (count / nfpf) ≤ count := by
      rw [Nat.mul_comm]
      exact Nat.div_mul_le_self count nfpf
    have hexp : (params.table_auto_incr_ids_start + count / nfpf) * nfpf +
        (count - nfpf * (count / nfpf)) =
        params.table_auto_incr_ids_start * nfpf + count := by
      rw [Nat.add_mul, Nat.mul_comm (count / nfpf) nfpf]
      omega
    rw [hexp]
    exact Nat.mod_eq_of_lt hcap
  · cases h

/-- C4: on every successful compaction, the produced data-file ids are
strictly increasing in production order, and the index file's id is strictly
greater than every data-file id of the same compaction. The capacity
hypothesis rules out u64 wrap-around of the packed id. -/
theorem claim_C4 (nfpf : Nat) (params : CompactionFileParams)
    (payload : DataCompactionPayload) (r : DataCompactionResult)
    (hpos : 0 < nfpf)
    (hb : build nfpf params payload = some r)
    (hcap : params.table_auto_incr_ids_start * nfpf + r.new_data_files.length < U64_MOD) :
    (r.new_data_files.map (fun fe => fe.1.file_id)).Pairwise (· < ·) ∧
    (∀ fi ∈ r.new_file_indices, ∀ fe ∈ r.new_data_files, fe.1.file_id < fi.file_id) := by
  obtain ⟨s, R, O, E, hc, hrR, hrE, hruuid, hcases⟩ :=
    build_some_cases nfpf params payload r hb
  obtain ⟨hInv, _⟩ := compact_files_inv nfpf params payload.disk_files
    initState [] [] [] s R O E (Inv_init nfpf params) hc
  rcases hcases with ⟨hRnil, hOnil, hnf, hni⟩ | ⟨s2, fi, hflush, hs2w, hnf, hni, hfid⟩
  · rw [hnf, hni]
    exact ⟨List.Pairwise.nil, by simp⟩
  · have hI2 : Inv nfpf params s2 R O := by
      by_cases hcw : s.cur_writer.isSome
      · rw [if_pos hcw] at hflush
        exact flush_inv nfpf params s s2 R O hInv hflush
      · rw [if_neg hcw] at hflush
        cases hflush
        exact hInv
    rw [hnf] at hcap
    have hval : ∀ (k : Nat) (hk : k < s2.new_data_files.length),
        (s2.new_data_files[k]).1.file_id =
          params.table_auto_incr_ids_start * nfpf + k := by
      intro k hk
      exact get_next_file_id_value nfpf params k _ hpos (by omega) (hI2.file_ids k hk)
    have hidxval : fi.file_id = params.table_auto_incr_ids_start * nfpf +
        s2.new_data_files.length := by
      have hfid' := hfid
      rw [hI2.count_eq] at hfid'
      exact get_next_file_id_value nfpf params s2.new_data_files.length _ hpos
        (by omega) hfid'
    constructor
    · rw [hnf, List.pairwise_iff_getElem]
      intro i j hi hj hij
      rw [List.length_map] at hi hj
      simp only [List.getElem_map]
      rw [hval i hi, hval j hj]
      omega
    · intro fi' hfi' fe hfe
      rw [hni, List.mem_singleton] at hfi'
      subst hfi'
      rw [hnf] at hfe
      obtain ⟨k, hk, rfl⟩ := List.mem_iff_getElem.1 hfe
      rw [hval k hk, hidxval]
      omega

/-- Scenario for the C4 witness: two input files (2 rows and 1 row), target 1
byte, so the writer rolls after each input file: data-file ids 4096, 4097 and
index id 4098. -/
def s1_fileA : SingleFileToCompact :=
  { file_id := 21, batches := [[1, 1]], deletion_vector := none,
    evicted_on_fetch := [], evicted_on_unpin := [] }

def s1_fileB : SingleFileToCompact :=
  { file_id := 22, batches := [[1]], deletion_vector := none,
    evicted_on_fetch := [], evicted_on_unpin := [] }

def s1_payload : DataCompactionPayload :=
  { uuid := 3, disk_files := [s1_fileA, s1_fileB], file_indices := [] }

/-- The result `build` produces on the C4 witness scenario. -/
def s1_result : DataCompactionResult :=
  { uuid := 3,
    remapped_data_files := [(RecordLocation.DiskFile 21 0,
        { record_location := RecordLocation.DiskFile 4096 0,
          new_data_file := { file_id := 4096 } }),
      (RecordLocation.DiskFile 21 1,
        { record_location := RecordLocation.DiskFile 4096 1,
          new_data_file := { file_id := 4096 } }),
      (RecordLocation.DiskFile 22 0,
        { record_location := RecordLocation.DiskFile 4097 0,
          new_data_file := { file_id := 4097 } })],
    old_data_files := [{ file_id := 21 }, { file_id := 22 }],
    old_file_indices := [],
    new_data_files := [({ file_id := 4096 }, { num_rows := 2, file_size := 2 }),
      ({ file_id := 4097 }, { num_rows := 1, file_size := 1 })],
    new_file_indices := [{ file_id := 4098, num_rows := 3 }],
    evicted_files_to_delete := [] }

/-- Witness for C4: the two-file scenario above. -/
theorem claim_C4_witness :
    (0 < 4096 ∧
      p_small_target.table_auto_incr_ids_start * 4096 +
        s1_result.new_data_files.length < U64_MOD) ∧
    ((s1_result.new_data_files.map (fun fe => fe.1.file_id)).Pairwise (· < ·) ∧
      (∀ fi ∈ s1_result.new_file_indices, ∀ fe ∈ s1_result.new_data_files,
        fe.1.file_id < fi.file_id)) :=
  ⟨⟨by decide, by decide⟩,
    claim_C4 4096 p_small_target s1_payload s1_result (by decide) rfl (by decide)⟩

/-! Claim C5: fully-deleted payloads. -/

theorem all_deleted_filtered_empty (dv : BatchDeletionVector) (batch : RecordBatch)
    (start : Nat)
    (hdel : ∀ i, start ≤ i → i < start + batch.length → dv.is_deleted i = true) :
    (get_filtered_record_batch dv batch start).length = 0 := by
  have hnil : (List.range' start batch.length).filter (fun i => ! dv.is_deleted i) = [] := by
    rw [List.filter_eq_nil_iff]
    intro a ha
    rw [List.mem_range'_1] at ha
    rw [hdel a ha.1 (by omega)]
    simp
  rw [length_get_filtered_record_batch, hnil]
  rfl

theorem process_batches_all_deleted (nfpf : Nat) (params : CompactionFileParams)
    (input_file_id : Nat) (dv : BatchDeletionVector) :
    ∀ (bs : List RecordBatch) (acc : FileLoopAcc),
      (∀ i, acc.old_start_row_idx ≤ i →
        i < acc.old_start_row_idx + (bs.map List.length).sum → dv.is_deleted i = true) →
      process_batches nfpf params input_file_id dv acc bs = some acc := by
  intro bs
  induction bs with
  | nil =>
    intro acc _
    rfl
  | cons b rest ih =>
    intro acc hdel
    have hflen : (get_filtered_record_batch dv b acc.old_start_row_idx).length = 0 :=
      all_deleted_filtered_empty dv b acc.old_start_row_idx
        (fun i h1 h2 => hdel i h1 (by simp only [List.map_cons, List.sum_cons]; omega))
    have hdel' : ∀ i, acc.old_start_row_idx ≤ i →
        i < acc.old_start_row_idx + (rest.map List.length).sum →
        dv.is_deleted i = true :=
      fun i h1 h2 => hdel i h1 (by simp only [List.map_cons, List.sum_cons]; omega)
    simp only [process_batches, process_batch]
    rw [if_pos hflen]
    exact ih acc hdel'

theorem apply_all_deleted (nfpf : Nat) (params : CompactionFileParams) (s : BuilderState)
    (f : SingleFileToCompact) (hdel : all_rows_deleted f) (hw : s.cur_writer = none) :
    apply_deletion_vector_and_write nfpf params s f =
      some (s, [], [], f.evicted_on_fetch ++ f.evicted_on_unpin) := by
  have hpb := process_batches_all_deleted nfpf params f.file_id (file_dv f) f.batches
    { st := s, old_start_row_idx := 0, remap := [], ords := [] }
    (by
      intro i h1 h2
      apply hdel i
      have h2' : i < 0 + (f.batches.map List.length).sum := h2
      unfold file_total_rows
      omega)
  simp only [file_dv] at hpb
  simp only [apply_deletion_vector_and_write]
  rw [hpb]
  simp [hw]

theorem compact_all_deleted (nfpf : Nat) (params : CompactionFileParams) :
    ∀ (files : List SingleFileToCompact) (s : BuilderState)
      (R : List (RecordLocation × RemappedRecordLocation))
      (O : List (RecordLocation × Nat)) (E : List String),
      (∀ f ∈ files, all_rows_deleted f) → s.cur_writer = none →
      compact_data_files_from nfpf params s R O E files =
        some (s, R, O, E ++ files.flatMap
          (fun f => f.evicted_on_fetch ++ f.evicted_on_unpin)) := by
  intro files
  induction files with
  | nil =>
    intro s R O E hdel hw
    simp [compact_data_files_from]
  | cons f rest ih =>
    intro s R O E hdel hw
    simp only [compact_data_files_from]
    rw [apply_all_deleted nfpf params s f (hdel f (by simp)) hw]
    show compact_data_files_from nfpf params s (R ++ []) (O ++ [])
        (E ++ (f.evicted_on_fetch ++ f.evicted_on_unpin)) rest = _
    rw [List.append_nil, List.append_nil]
    rw [ih s R O (E ++ (f.evicted_on_fetch ++ f.evicted_on_unpin))
      (fun g hg => hdel g (by simp [hg])) hw]
    rw [List.flatMap_cons, List.append_assoc]

/-- C5: when every input row of the payload is deleted, the data-file loop
returns an empty remap and an empty post-to-output-ordinal map, and `build`
succeeds with empty `new_data_files` and empty `new_file_indices` (so no
index compaction is run) while still carrying the accumulated evicted-file
list. -/
theorem claim_C5 (nfpf : Nat) (params : CompactionFileParams)
    (payload : DataCompactionPayload)
    (hdel : ∀ f ∈ payload.disk_files, all_rows_deleted f) :
    compact_data_files_from nfpf params initState [] [] [] payload.disk_files =
      some (initState, [], [],
        payload.disk_files.flatMap (fun f => f.evicted_on_fetch ++ f.evicted_on_unpin)) ∧
    build nfpf params payload = some
      { uuid := payload.uuid,
        remapped_data_files := [],
        old_data_files := payload.disk_files.map (fun f => { file_id := f.file_id }),
        old_file_indices := payload.file_indices,
        new_data_files := [],
        new_file_indices := [],
        evicted_files_to_delete :=
          payload.disk_files.flatMap
            (fun f => f.evicted_on_fetch ++ f.evicted_on_unpin) } := by
  have hcdf := compact_all_deleted nfpf params payload.disk_files initState [] [] [] hdel rfl
  rw [List.nil_append] at hcdf
  refine ⟨hcdf, ?_⟩
  simp only [build]
  rw [hcdf]
  rfl

/-- Input file for the C5 witness: two rows, both deleted, with one evicted
file reported at fetch and one at unpin. -/
def all_deleted_file : SingleFileToCompact :=
  { file_id := 9, batches := [[5, 5]],
    deletion_vector := some { deleted_rows := [0, 1] },
    evicted_on_fetch := ["e1"], evicted_on_unpin := ["e2"] }

def all_deleted_payload : DataCompactionPayload :=
  { uuid := 4, disk_files := [all_deleted_file],
    file_indices := [{ file_id := 2, num_rows := 2 }] }

def all_deleted_result : DataCompactionResult :=
  { uuid := 4, remapped_data_files := [], old_data_files := [{ file_id := 9 }],
    old_file_indices := [{ file_id := 2, num_rows := 2 }], new_data_files := [],
    new_file_indices := [], evicted_files_to_delete := ["e1", "e2"] }

/-- Witness for C5 at the fully-deleted two-row payload. -/
theorem claim_C5_witness :
    (∀ f ∈ all_deleted_payload.disk_files, all_rows_deleted f) ∧
    compact_data_files_from 4096 p_small_target initState [] [] []
        all_deleted_payload.disk_files =
      some (initState, [], [], all_deleted_payload.disk_files.flatMap
        (fun f => f.evicted_on_fetch ++ f.evicted_on_unpin)) ∧
    build 4096 p_small_target all_deleted_payload = some all_deleted_result :=
  ⟨by decide, (claim_C5 4096 p_small_target all_deleted_payload (by decide)).1,
    (claim_C5 4096 p_small_target all_deleted_payload (by decide)).2⟩

end Moonlink
